import Mathlib

/-!
# Verification of the GOQII wearables data pipeline

A shallow embedding, in Lean 4, of the data-cleaning and correlation-analysis
core of the `wearables` repository (`src/data_cleaner.py` and
`src/correlation_engine.py`), together with theorems settling the frozen
claims C1..C10 about that code.

Modelling conventions:
* Python floats are modelled as `ℚ`, except in the cleaner where a primary or
  secondary value may be `NaN`; there values are `PVal` (a rational or `nan`),
  mirroring float comparison semantics (every comparison with `NaN` is false)
  and Python truthiness (`0.0` falsy, `NaN` truthy).
* Timestamps are integers (`ts`), calendar days are integers (`day`).
* Python exceptions are modelled with `Except PyError`; in particular
  reading an attribute that was never assigned is `.error .attributeError`.
* `scipy.stats.pearsonr` / `spearmanr` are opaque statistical kernels: the
  embedding is parametrised by a `StatKernel`, whose calls return
  `Option (ℚ × ℚ)` (an `(r, p)` pair, or `none` for a raised exception).
  Every claim under verification concerns gating, pairing, ordering and
  flagging, never the numeric value of a correlation coefficient.
* The z-score test `|x - μ|/σ > t` is embedded as the equivalent
  square comparison `(x - μ)² > t²·σ²` (with `σ² > 0`), avoiding square
  roots; quantiles use the same linear interpolation as
  `pandas.Series.quantile` / `numpy.percentile`, with the index arithmetic
  carried out on naturals.
* Output payload structures carry the fields the claims observe (keys,
  sample counts, confidence labels, correlation sequences, anomaly dates);
  derived presentation strings and rounded summary statistics of the source
  are not re-modelled.
-/

/-- A Python float value in the cleaner: a rational number or `NaN`. -/
inductive PVal where
  | num : ℚ → PVal
  | nan : PVal
deriving DecidableEq

/-- The `pd.isna` test on a `PVal`. -/
def PVal.isNan : PVal → Bool
  | .nan => true
  | .num _ => false

/-- Python `<=` on floats: any comparison involving `NaN` is false. -/
def ple : PVal → PVal → Bool
  | .num a, .num b => decide (a ≤ b)
  | _, _ => false

/-- Python `<` on floats: any comparison involving `NaN` is false. -/
def plt : PVal → PVal → Bool
  | .num a, .num b => decide (a < b)
  | _, _ => false

/-- Python truthiness of a float: `0.0` is falsy, every other float
(including `NaN`) is truthy. -/
def truthyP : PVal → Bool
  | .num q => decide (q ≠ 0)
  | .nan => true

/-- Python `==` on floats: `NaN` is equal to nothing, itself included. -/
def pvalEq : PVal → PVal → Bool
  | .num a, .num b => decide (a = b)
  | _, _ => false

/-- A raw health record as seen by `HealthDataCleaner`
(`_clean_participant_metric_data` receives the records of one participant
and one metric, so only the timestamp, the two values and the quality flag
matter). -/
structure CRec where
  ts : ℤ
  v1 : PVal
  v2 : Option PVal
  flag : String
deriving DecidableEq

/-- Equality of the duplicate-detection key `(datetime, value_1, value_2)`
under Python `==` (tuples compare componentwise; `None == None` is true,
`NaN` equals nothing). -/
def keyEq (a b : ℤ × PVal × Option PVal) : Bool :=
  decide (a.1 = b.1) &&
    pvalEq a.2.1 b.2.1 &&
    (match a.2.2, b.2.2 with
     | none, none => true
     | some x, some y => pvalEq x y
     | _, _ => false)

/-- Embeds `HealthDataCleaner._remove_duplicates`, the recursion over the record
list carrying the `seen` set of keys: the first record with a given key is
kept untouched, later ones are flagged `"duplicate"` (and kept in the
list). -/
def removeDuplicatesGo (seen : List (ℤ × PVal × Option PVal)) :
    List CRec → List CRec
  | [] => []
  | r :: rest =>
    let k := (r.ts, r.v1, r.v2)
    if seen.any (fun s => keyEq s k) then
      { r with flag := "duplicate" } :: removeDuplicatesGo seen rest
    else
      r :: removeDuplicatesGo (k :: seen) rest

/-- Embeds `HealthDataCleaner._remove_duplicates`. -/
def removeDuplicates (rs : List CRec) : List CRec :=
  removeDuplicatesGo [] rs

/-- Step 2 of `_clean_participant_metric_data`: sort ascending by datetime
(Python `list.sort` is stable; insertion sort is stable as well). -/
def sortRecords (rs : List CRec) : List CRec :=
  rs.insertionSort (fun a b => a.ts ≤ b.ts)

/-- The per-record body of `HealthDataCleaner._apply_validation_rules`,
with the ranges of `VALIDATION_RANGES` inlined.  A record whose flag is not
`"good"` is skipped.  For `'bp'`, the diastolic checks are guarded by
Python truthiness of `record.value_2` (`record.value_2 and ...`), so a
`None` or `0.0` diastolic disables them; for `'steps'` the source re-checks
negativity after the range check. -/
def recordValidate (metricType : String) (r : CRec) : CRec :=
  if r.flag = "good" then
    if metricType = "bp" then
      if !(ple (.num 80) r.v1 && ple r.v1 (.num 200)) then
        { r with flag := "invalid" }
      else
        match r.v2 with
        | none => r
        | some w =>
          if truthyP w && !(ple (.num 50) w && ple w (.num 130)) then
            { r with flag := "invalid" }
          else if truthyP w && ple r.v1 w then
            { r with flag := "invalid" }
          else r
    else if metricType = "sleep" then
      if !(ple (.num 0) r.v1 && ple r.v1 (.num 24)) then
        { r with flag := "invalid" }
      else r
    else if metricType = "steps" then
      let r1 :=
        if !(ple (.num 0) r.v1 && ple r.v1 (.num 50000)) then
          { r with flag := "invalid" }
        else r
      if plt r1.v1 (.num 0) then { r1 with flag := "invalid" } else r1
    else if metricType = "hr" then
      if !(ple (.num 30) r.v1 && ple r.v1 (.num 220)) then
        { r with flag := "invalid" }
      else r
    else if metricType = "spo2" then
      if !(ple (.num 80) r.v1 && ple r.v1 (.num 100)) then
        { r with flag := "invalid" }
      else r
    else if metricType = "temp" then
      if !(ple (.num 90) r.v1 && ple r.v1 (.num 105)) then
        { r with flag := "invalid" }
      else r
    else r
  else r

/-- Embeds `HealthDataCleaner._apply_validation_rules`. -/
def applyValidationRules (metricType : String) (rs : List CRec) : List CRec :=
  rs.map (recordValidate metricType)

/-- The non-`NaN` rationals of a `PVal` series (`nan_policy='omit'` /
`dropna`). -/
def toQs (vs : List PVal) : List ℚ :=
  vs.filterMap fun v => match v with | .num q => some q | .nan => none

/-- Arithmetic mean of a rational list (`0` on the empty list, where the
source would produce `NaN`; the guard `σ² > 0` below makes that case
harmless exactly as `NaN` comparisons are false). -/
def meanQ (l : List ℚ) : ℚ := l.sum / l.length

/-- Population variance (`ddof = 0`, as in `scipy.stats.zscore` and
`np.std`). -/
def varQ (l : List ℚ) : ℚ :=
  (l.map (fun x => (x - meanQ l) ^ 2)).sum / l.length

/-- Linear-interpolation quantile at fraction `a / b` of a rational list,
as computed by `numpy.percentile` / `pandas.Series.quantile`: with sorted
values `s₀ … s_{n−1}` and `h = (a/b)·(n−1) = i + γ`, the result is
`s_i + γ·(s_{i+1} − s_i)`. -/
def quantileAB (vs : List ℚ) (a b : ℕ) : ℚ :=
  let s := vs.insertionSort (· ≤ ·)
  let n := s.length
  if n = 0 then 0
  else
    let np := a * (n - 1)
    let i : ℕ := np / b
    let g : ℚ := ((np % b : ℕ) : ℚ) / (b : ℚ)
    s.getD i 0 + g * (s.getD (i + 1) (s.getD i 0) - s.getD i 0)

/-- The z-score test of `_detect_outliers_in_series` on entry `i`:
`|z| > t` with `z = (x − μ)/σ` over the non-`NaN` values, embedded as
`(x − μ)² > t²·σ²` with `σ² > 0` (a zero standard deviation yields `NaN`
z-scores in the source, and comparisons with `NaN` are false; a `NaN`
entry has a `NaN` z-score under `nan_policy='omit'`). -/
def zOutB (vs : List PVal) (zt : ℚ) (i : ℕ) : Bool :=
  match vs.getD i .nan with
  | .nan => false
  | .num x =>
    let ns := toQs vs
    decide (0 < varQ ns ∧ zt ^ 2 * varQ ns < (x - meanQ ns) ^ 2)

/-- The Tukey IQR test of `_detect_outliers_in_series` on entry `i`.
`np.percentile` over an array containing `NaN` returns `NaN`, making both
bound comparisons false, so a series containing any `NaN` produces no IQR
outliers. -/
def iqrOutB (vs : List PVal) (f : ℚ) (i : ℕ) : Bool :=
  if vs.any PVal.isNan then false
  else
    let qs := toQs vs
    let q1 := quantileAB qs 1 4
    let q3 := quantileAB qs 3 4
    let iqr := q3 - q1
    match vs.getD i .nan with
    | .nan => false
    | .num x => decide (x < q1 - f * iqr ∨ q3 + f * iqr < x)

/-- Embeds `HealthDataCleaner._detect_outliers_in_series`: the set of outlier
indices (z-score test or IQR test), empty below 5 samples. -/
def detectOutliersInSeries (vs : List PVal) (zt f : ℚ) : List ℕ :=
  if vs.length < 5 then []
  else (List.range vs.length).filter (fun i => zOutB vs zt i || iqrOutB vs f i)

/-- Embeds `HealthDataCleaner.OUTLIER_PARAMS` as `(z_threshold, iqr_factor)`, with
the source's default `(3.0, 2.5)` for unknown metric types. -/
def outlierParams (metricType : String) : ℚ × ℚ :=
  if metricType = "bp" then (3, 5/2)
  else if metricType = "sleep" then (5/2, 2)
  else if metricType = "steps" then (3, 3)
  else if metricType = "hr" then (5/2, 2)
  else if metricType = "spo2" then (2, 3/2)
  else if metricType = "temp" then (2, 3/2)
  else (3, 5/2)

/-- The flagging loop of `_detect_outliers` (`for i, record in
enumerate(good_records)`): walks the full record list, counting only
records flagged `"good"`; good record number `i` becomes an outlier when
`i ∈ outliers_1`, or when it has a secondary value and `i ∈ outliers_2`. -/
def flagOutliers : List CRec → List ℕ → List ℕ → ℕ → List CRec
  | [], _, _, _ => []
  | r :: rest, out1, out2, i =>
    if r.flag = "good" then
      (if i ∈ out1 ∨ (r.v2.isSome ∧ i ∈ out2) then
        { r with flag := "outlier" }
      else r) :: flagOutliers rest out1 out2 (i + 1)
    else
      r :: flagOutliers rest out1 out2 i

/-- Embeds `HealthDataCleaner._detect_outliers`: no-op below 5 good records;
otherwise flags outliers among the good records from the primary-value
series and (when present) the secondary-value series.  As in the source,
`outliers_2` is computed over the *filtered* list of secondary values but
tested against the good-record index. -/
def detectOutliers (metricType : String) (rs : List CRec) : List CRec :=
  let good := rs.filter (fun r => r.flag = "good")
  if good.length < 5 then rs
  else
    let vs1 := good.map (·.v1)
    let vs2 := good.filterMap (·.v2)
    let p := outlierParams metricType
    let out1 := detectOutliersInSeries vs1 p.1 p.2
    let out2 := if vs2.isEmpty then [] else detectOutliersInSeries vs2 p.1 p.2
    flagOutliers rs out1 out2 0

/-- Embeds `HealthDataCleaner._handle_missing_values`: a record whose primary
value is null/`NaN` is flagged `"missing"`, unconditionally on its current
flag. -/
def handleMissingValues (rs : List CRec) : List CRec :=
  rs.map fun r => if r.v1.isNan then { r with flag := "missing" } else r

/-- Embeds `HealthDataCleaner._clean_participant_metric_data`: the fixed pipeline
duplicates → sort → range validation → outlier detection → missing-value
check. -/
def cleanParticipantMetricData (metricType : String) (rs : List CRec) :
    List CRec :=
  handleMissingValues
    (detectOutliers metricType
      (applyValidationRules metricType (sortRecords (removeDuplicates rs))))

/-- A health record as consumed by `CorrelationEngine` (good-quality
records reaching the engine carry numeric primary values: the cleaner's
missing-value pass reflags every `NaN` primary value, see the C5
development below). -/
structure CERec where
  pid : String
  metric : String
  day : ℤ
  value : ℚ
  flag : String
deriving DecidableEq

/-- Embeds `CorrelationEngine.CORRELATION_PAIRS`. -/
def correlationPairs : List (String × String) :=
  [("steps", "sleep"), ("steps", "hr"), ("steps", "bp"), ("steps", "temp"),
   ("steps", "spo2"), ("sleep", "hr"), ("sleep", "temp"), ("sleep", "spo2"),
   ("sleep", "bp"), ("hr", "temp"), ("hr", "bp"), ("hr", "spo2"),
   ("temp", "spo2"), ("temp", "bp"), ("spo2", "bp")]

/-- The attribute state of a `CorrelationEngine` instance.  `__init__`
assigns `min_days` (default 7); the line
`self.rolling_window = kwargs.get('rolling_window', 14)` sits after the
`return` statement of `analyze_deviations` (line 207 of
`correlation_engine.py`) and is unreachable, so `rolling_window` is an
`Option` that `__init__` leaves at `none`. -/
structure CorrelationEngine where
  min_days : ℕ
  rolling_window : Option ℕ

/-- The state `CorrelationEngine(**{})`: the state after `__init__` with default
keyword arguments. -/
def engineInit : CorrelationEngine := { min_days := 7, rolling_window := none }

/-- Modelled from the spec: the engine state the dead assignment on line
207 would have produced had it been reachable from `__init__`
(`rolling_window = 14`, the documented default window). -/
def engineSpecInit : CorrelationEngine :=
  { min_days := 7, rolling_window := some 14 }

/-- A Python exception value. -/
inductive PyError where
  | attributeError
deriving DecidableEq

/-- The statistical kernel (`scipy.stats.pearsonr` / `spearmanr`): each
call returns an `(r, p)` pair or `none` for a raised exception. -/
structure StatKernel where
  pearson : List ℚ → List ℚ → Option (ℚ × ℚ)
  spearman : List ℚ → List ℚ → Option (ℚ × ℚ)

/-- A degenerate kernel whose calls always raise; used for concrete
evaluations of code paths that never consult the kernel's values. -/
def noStats : StatKernel := ⟨fun _ _ => none, fun _ _ => none⟩

/-- The `value_1` readings of one metric on one calendar day, in record
order (the append order of `_create_daily_dataframe`'s grouping loop). -/
def dayValues (rs : List CERec) (d : ℤ) (m : String) : List ℚ :=
  (rs.filter (fun r => r.day = d && r.metric = m)).map (·.value)

/-- The aggregation rule of `_create_daily_dataframe`: `np.sum` for
`'steps'`, `np.mean` otherwise. -/
def aggregateMetric (m : String) (vs : List ℚ) : ℚ :=
  if m = "steps" then vs.sum else vs.sum / vs.length

/-- The (sorted, duplicate-free) date index of the daily DataFrame. -/
def dfDates (rs : List CERec) : List ℤ :=
  ((rs.map (·.day)).dedup).insertionSort (· ≤ ·)

/-- The daily aggregated DataFrame: date index, metric columns, and the
cell contents (`none` = `NaN`, a date with no reading of the metric). -/
structure DailyDF where
  dates : List ℤ
  cols : List String
  cell : ℤ → String → Option ℚ

/-- Embeds `CorrelationEngine._create_daily_dataframe`. -/
def createDailyDataframe (rs : List CERec) : DailyDF :=
  { dates := dfDates rs,
    cols := (rs.map (·.metric)).dedup,
    cell := fun d m =>
      let vs := dayValues rs d m
      if vs = [] then none else some (aggregateMetric m vs) }

/-- The valid same-day pairs of `_compute_daily_correlations`: dates where
both metrics are non-missing, in date order. -/
def validPairs (df : DailyDF) (m1 m2 : String) : List (ℚ × ℚ) :=
  df.dates.filterMap fun d =>
    match df.cell d m1, df.cell d m2 with
    | some a, some b => some (a, b)
    | _, _ => none

/-- The valid pairs of `_compute_lag_correlations`: the source shifts the
second column by one *position* (`.shift(-1)` on the date-sorted frame), so
metric 1 on the `i`-th date is paired with metric 2 on the `(i+1)`-th date
of the index, whatever the calendar gap between them. -/
def lagPairs (df : DailyDF) (m1 m2 : String) : List (ℚ × ℚ) :=
  (df.dates.zip df.dates.tail).filterMap fun p =>
    match df.cell p.1 m1, df.cell p.2 m2 with
    | some a, some b => some (a, b)
    | _, _ => none

/-- Modelled from the spec's words for claim C3 (a comparator, not source
code): metric 1 on calendar day `d` paired with metric 2 on calendar day
`d + 1`. -/
def lagPairsSpec (df : DailyDF) (m1 m2 : String) : List (ℚ × ℚ) :=
  df.dates.filterMap fun d =>
    match df.cell d m1, df.cell (d + 1) m2 with
    | some a, some b => some (a, b)
    | _, _ => none

/-- Embeds `CorrelationEngine._get_confidence_level`. -/
def getConfidenceLevel (nDays : ℕ) (correlation : ℚ) : String :=
  if 30 ≤ nDays ∧ 1/2 ≤ |correlation| then "solid"
  else if 14 ≤ nDays ∧ 3/10 ≤ |correlation| then "pretty sure"
  else if 1/5 ≤ |correlation| then "might be a thing"
  else "not confident"

/-- One correlation-result payload (`n_days`, the two `(r, p)` pairs and
the confidence label; the derived interpretation strings and the rounding
applied for serialisation are not re-modelled). -/
structure CorrEntry where
  nDays : ℕ
  pearsonR : ℚ
  pearsonP : ℚ
  spearmanR : ℚ
  spearmanP : ℚ
  confidence : String
deriving DecidableEq

/-- Embeds `CorrelationEngine._compute_daily_correlations`: for each of the 15
pairs whose metrics are both columns, keep the pair when it has ≥ 5 valid
same-day samples and both kernel calls succeed. -/
def dailyCorrs (κ : StatKernel) (df : DailyDF) : List (String × CorrEntry) :=
  correlationPairs.filterMap fun pr =>
    if pr.1 ∈ df.cols ∧ pr.2 ∈ df.cols then
      let ps := validPairs df pr.1 pr.2
      if ps.length < 5 then none
      else
        match κ.pearson (ps.map Prod.fst) (ps.map Prod.snd),
              κ.spearman (ps.map Prod.fst) (ps.map Prod.snd) with
        | some pe, some sp =>
          some (pr.1 ++ "_vs_" ++ pr.2,
            ⟨ps.length, pe.1, pe.2, sp.1, sp.2,
             getConfidenceLevel ps.length (max |pe.1| |sp.1|)⟩)
        | _, _ => none
    else none

/-- Embeds `CorrelationEngine._compute_lag_correlations` (same machinery over the
position-shifted pairs). -/
def lagCorrs (κ : StatKernel) (df : DailyDF) : List (String × CorrEntry) :=
  correlationPairs.filterMap fun pr =>
    if pr.1 ∈ df.cols ∧ pr.2 ∈ df.cols then
      let ps := lagPairs df pr.1 pr.2
      if ps.length < 5 then none
      else
        match κ.pearson (ps.map Prod.fst) (ps.map Prod.snd),
              κ.spearman (ps.map Prod.fst) (ps.map Prod.snd) with
        | some pe, some sp =>
          some (pr.1 ++ "_to_" ++ pr.2 ++ "_next_day",
            ⟨ps.length, pe.1, pe.2, sp.1, sp.2,
             getConfidenceLevel ps.length (max |pe.1| |sp.1|)⟩)
        | _, _ => none
    else none

/-- The window rows `daily_df.iloc[i-w:i]` of the rolling analysis. -/
def windowSlice (df : DailyDF) (w i : ℕ) : List ℤ :=
  (df.dates.drop (i - w)).take w

/-- The rolling correlation sequence of one metric pair: one entry per
window position `i ∈ [w, len)`; a window with fewer than 7 valid paired
samples, or a kernel failure, records a gap (`none` = `NaN`). -/
def rollingSeq (κ : StatKernel) (df : DailyDF) (w : ℕ) (m1 m2 : String) :
    List (Option ℚ) :=
  (List.range' w (df.dates.length - w)).map fun i =>
    let ps := (windowSlice df w i).filterMap fun d =>
      match df.cell d m1, df.cell d m2 with
      | some a, some b => some (a, b)
      | _, _ => none
    if ps.length < 7 then none
    else
      match κ.pearson (ps.map Prod.fst) (ps.map Prod.snd) with
      | some pe => some pe.1
      | none => none

/-- Embeds `CorrelationEngine._compute_rolling_correlations`.  The body's first
expression reads `self.rolling_window`, which `__init__` never assigned,
so on the engine state produced by `__init__` this raises
`AttributeError`; with an assigned window `w`, a series shorter than
`w + 5` days returns the empty map, and otherwise each pair whose gap-
tolerant sequence contains any non-`NaN` value contributes an entry. -/
def computeRollingCorrelations (κ : StatKernel) (e : CorrelationEngine)
    (df : DailyDF) : Except PyError (List (String × List (Option ℚ))) :=
  match e.rolling_window with
  | none => .error .attributeError
  | some w =>
    if df.dates.length < w + 5 then .ok []
    else
      .ok (correlationPairs.filterMap fun pr =>
        if pr.1 ∈ df.cols ∧ pr.2 ∈ df.cols then
          let seq := rollingSeq κ df w pr.1 pr.2
          if seq.any (·.isSome) then some (pr.1 ++ "_vs_" ++ pr.2, seq)
          else none
        else none)

/-- The metric column restricted to its non-missing values, in date order
(`daily_df[metric].dropna()`). -/
def metricValues (df : DailyDF) (m : String) : List ℚ :=
  df.dates.filterMap fun d => df.cell d m

/-- The anomaly-detection lower bound `Q1 − 2.0·IQR` of
`_analyze_anomalies`. -/
def anomalyLowerBound (df : DailyDF) (m : String) : ℚ :=
  let vs := metricValues df m
  let q1 := quantileAB vs 1 4
  let q3 := quantileAB vs 3 4
  q1 - 2 * (q3 - q1)

/-- The anomaly-detection upper bound `Q3 + 2.0·IQR` of
`_analyze_anomalies`. -/
def anomalyUpperBound (df : DailyDF) (m : String) : ℚ :=
  let vs := metricValues df m
  let q1 := quantileAB vs 1 4
  let q3 := quantileAB vs 3 4
  q3 + 2 * (q3 - q1)

/-- The anomalous dates of one metric: the dates of the non-missing values
falling strictly outside `[Q1 − 2·IQR, Q3 + 2·IQR]`. -/
def anomalyDates (df : DailyDF) (m : String) : List ℤ :=
  df.dates.filter fun d =>
    match df.cell d m with
    | some v => decide (v < anomalyLowerBound df m ∨ anomalyUpperBound df m < v)
    | none => false

/-- Embeds `CorrelationEngine._analyze_anomalies`, restricted to the payload under
verification (the anomalous dates per metric): a metric column needs ≥ 7
non-missing values and at least one anomaly to contribute an entry.  (The
source's `isna().all()` guard is subsumed: an all-`NaN` column has 0 < 7
non-missing values.) -/
def analyzeAnomalies (df : DailyDF) : List (String × List ℤ) :=
  df.cols.filterMap fun m =>
    let vs := metricValues df m
    if vs.length < 7 then none
    else
      let ds := anomalyDates df m
      if ds = [] then none else some (m, ds)

/-- The recovery band test of `_analyze_recovery_patterns`:
`Q1 − 1.5·IQR ≤ v ≤ Q3 + 1.5·IQR` over the metric's non-missing values. -/
def inRecoveryBand (df : DailyDF) (m : String) (v : ℚ) : Bool :=
  let vs := metricValues df m
  let q1 := quantileAB vs 1 4
  let q3 := quantileAB vs 3 4
  let iqr := q3 - q1
  decide (q1 - 3/2 * iqr ≤ v ∧ v ≤ q3 + 3/2 * iqr)

/-- The forward scan of `_analyze_recovery_patterns` over the offsets
`ks` (in the source, `days_after in range(1, 8)`): an offset whose date is
absent from the index `break`s the scan; a present date with a missing
metric value is skipped (`continue`); the first in-band value is
recorded. -/
def recoveryFind (df : DailyDF) (m : String) (a : ℤ) : List ℕ → Option ℕ
  | [] => none
  | k :: ks =>
    if (a + (k : ℤ)) ∈ df.dates then
      match df.cell (a + (k : ℤ)) m with
      | none => recoveryFind df m a ks
      | some v =>
        if inRecoveryBand df m v then some k else recoveryFind df m a ks
    else none

/-- The recovery offset the source records for one anomalous date. -/
def recoveryOffset (df : DailyDF) (m : String) (a : ℤ) : Option ℕ :=
  recoveryFind df m a [1, 2, 3, 4, 5, 6, 7]

/-- Modelled from the spec's words for claim C4 (a comparator, not source
code): the first of the 7 following calendar days whose value is present
and in-band, days with no aggregated value never terminating the scan. -/
def recoveryOffsetSpec (df : DailyDF) (m : String) (a : ℤ) : Option ℕ :=
  [1, 2, 3, 4, 5, 6, 7].find? fun k =>
    match df.cell (a + (k : ℤ)) m with
    | some v => inRecoveryBand df m v
    | none => false

/-- The per-participant analysis payload under verification. -/
structure Analysis where
  totalDays : ℕ
  dailyCorrelations : List (String × CorrEntry)
  lagCorrelations : List (String × CorrEntry)
  rollingCorrelations : List (String × List (Option ℚ))
  anomalyAnalysis : List (String × List ℤ)
deriving DecidableEq

/-- Embeds `CorrelationEngine._analyze_participant_correlations`: no good
records, or fewer than `min_days` aggregated days, yield the empty dict
(`none`); otherwise the analysis dict is built, whose construction calls
`_compute_rolling_correlations` (the only fallible component: the daily
and lag analyzers catch per-pair exceptions internally). -/
def analyzeParticipantCorrelations (κ : StatKernel) (e : CorrelationEngine)
    (records : List CERec) : Except PyError (Option Analysis) :=
  let good := records.filter (fun r => r.flag = "good")
  if good.isEmpty then .ok none
  else
    let df := createDailyDataframe good
    if df.dates.length < e.min_days then .ok none
    else
      match computeRollingCorrelations κ e df with
      | .error err => .error err
      | .ok roll =>
        .ok (some
          ⟨df.dates.length, dailyCorrs κ df, lagCorrs κ df, roll,
           analyzeAnomalies df⟩)

/-- Embeds `data.get_participants()` (a Python `set`; modelled as first-occurrence
deduplication, a fixed iteration order — no claim depends on the order). -/
def participants (rs : List CERec) : List String :=
  (rs.map (·.pid)).dedup

/-- Embeds `data.get_participant_data(pid)`. -/
def participantData (rs : List CERec) (pid : String) : List CERec :=
  rs.filter (fun r => r.pid = pid)

/-- The loop body of `CorrelationEngine.process` over a participant list:
a non-empty result is recorded; the loop has no exception handler, so an
exception raised for any participant propagates out of `process`. -/
def processList (κ : StatKernel) (e : CorrelationEngine) (rs : List CERec) :
    List String → Except PyError (List (String × Analysis))
  | [] => .ok []
  | p :: ps =>
    match analyzeParticipantCorrelations κ e (participantData rs p) with
    | .error err => .error err
    | .ok none => processList κ e rs ps
    | .ok (some a) =>
      match processList κ e rs ps with
      | .error err => .error err
      | .ok acc => .ok ((p, a) :: acc)

/-- Embeds `CorrelationEngine.process`. -/
def processEngine (κ : StatKernel) (e : CorrelationEngine)
    (rs : List CERec) : Except PyError (List (String × Analysis)) :=
  processList κ e rs (participants rs)

/-- Example records: two same-day step readings (100, 150) and two same-day
heart-rate readings (60, 80), the aggregation round-trip of the spec. -/
def aggRecs : List CERec :=
  [⟨"P1", "steps", 0, 100, "good"⟩, ⟨"P1", "steps", 0, 150, "good"⟩,
   ⟨"P1", "hr", 0, 60, "good"⟩, ⟨"P1", "hr", 0, 80, "good"⟩]

/-- Example records: one participant with a 10-day daily step series
(7 ≤ 10 < 19 days, so the analysis reaches the rolling-window analyzer
while the series is shorter than `rolling_window + 5`). -/
def rollRecs : List CERec :=
  [⟨"P1", "steps", 0, 1000, "good"⟩, ⟨"P1", "steps", 1, 1100, "good"⟩,
   ⟨"P1", "steps", 2, 1200, "good"⟩, ⟨"P1", "steps", 3, 1300, "good"⟩,
   ⟨"P1", "steps", 4, 1400, "good"⟩, ⟨"P1", "steps", 5, 1500, "good"⟩,
   ⟨"P1", "steps", 6, 1600, "good"⟩, ⟨"P1", "steps", 7, 1700, "good"⟩,
   ⟨"P1", "steps", 8, 1800, "good"⟩, ⟨"P1", "steps", 9, 1900, "good"⟩]

/-- Example collection with two participants: `P1` has a 7-day step series
(so its analysis reaches the rolling-window analyzer and raises), `P2` has
a single day of data (its analysis succeeds, returning the empty dict). -/
def procRecs : List CERec :=
  [⟨"P1", "steps", 0, 1000, "good"⟩, ⟨"P1", "steps", 1, 1100, "good"⟩,
   ⟨"P1", "steps", 2, 1200, "good"⟩, ⟨"P1", "steps", 3, 1300, "good"⟩,
   ⟨"P1", "steps", 4, 1400, "good"⟩, ⟨"P1", "steps", 5, 1500, "good"⟩,
   ⟨"P1", "steps", 6, 1600, "good"⟩, ⟨"P2", "hr", 0, 60, "good"⟩]

/-- Example records: one participant, 6 distinct days, each day carrying a
step and a heart-rate reading (6 overlapping valid days for the pair). -/
def gateRecs : List CERec :=
  [⟨"P1", "steps", 0, 1000, "good"⟩, ⟨"P1", "hr", 0, 60, "good"⟩,
   ⟨"P1", "steps", 1, 1100, "good"⟩, ⟨"P1", "hr", 1, 61, "good"⟩,
   ⟨"P1", "steps", 2, 1200, "good"⟩, ⟨"P1", "hr", 2, 62, "good"⟩,
   ⟨"P1", "steps", 3, 1300, "good"⟩, ⟨"P1", "hr", 3, 63, "good"⟩,
   ⟨"P1", "steps", 4, 1400, "good"⟩, ⟨"P1", "hr", 4, 64, "good"⟩,
   ⟨"P1", "steps", 5, 1500, "good"⟩, ⟨"P1", "hr", 5, 65, "good"⟩]

/-- Example records with a calendar gap: steps and heart rate on days 0 and
2, nothing on day 1. -/
def gapRecs : List CERec :=
  [⟨"P1", "steps", 0, 100, "good"⟩, ⟨"P1", "hr", 0, 60, "good"⟩,
   ⟨"P1", "steps", 2, 200, "good"⟩, ⟨"P1", "hr", 2, 80, "good"⟩]

/-- Example records on consecutive days 0, 1, 2 (no calendar gap). -/
def consecRecs : List CERec :=
  [⟨"P1", "steps", 0, 100, "good"⟩, ⟨"P1", "hr", 0, 60, "good"⟩,
   ⟨"P1", "steps", 1, 150, "good"⟩, ⟨"P1", "hr", 1, 70, "good"⟩,
   ⟨"P1", "steps", 2, 200, "good"⟩, ⟨"P1", "hr", 2, 80, "good"⟩]

/-- Example heart-rate series with an anomalous day 0 (value 1000 against
a tight 60..63 cluster) and *no row at all* on day 1: the quartiles are
Q1 = 60.75, Q3 = 62.25, so day 0 lies outside the detection band
`[57.75, 65.25]` and day 2's value 60 lies inside the recovery band
`[58.5, 64.5]`. -/
def recovGapRecs : List CERec :=
  [⟨"P1", "hr", 0, 1000, "good"⟩, ⟨"P1", "hr", 2, 60, "good"⟩,
   ⟨"P1", "hr", 3, 61, "good"⟩, ⟨"P1", "hr", 4, 62, "good"⟩,
   ⟨"P1", "hr", 5, 63, "good"⟩, ⟨"P1", "hr", 6, 60, "good"⟩,
   ⟨"P1", "hr", 7, 61, "good"⟩, ⟨"P1", "hr", 8, 62, "good"⟩]

/-- Example heart-rate series with all of days 0..8 present (no calendar
gap after the anomalous day 0). -/
def recovFullRecs : List CERec :=
  [⟨"P1", "hr", 0, 1000, "good"⟩, ⟨"P1", "hr", 1, 60, "good"⟩,
   ⟨"P1", "hr", 2, 61, "good"⟩, ⟨"P1", "hr", 3, 62, "good"⟩,
   ⟨"P1", "hr", 4, 63, "good"⟩, ⟨"P1", "hr", 5, 60, "good"⟩,
   ⟨"P1", "hr", 6, 61, "good"⟩, ⟨"P1", "hr", 7, 62, "good"⟩,
   ⟨"P1", "hr", 8, 63, "good"⟩]

/-- Example heart-rate series realising the spec's anomaly-bound example:
daily values 10, 10, 10, 10, 15, 20, 20, 35, 45 on days 0..8, whose
quartiles are Q1 = 10 and Q3 = 20 (bounds `[-10, 40]`), with 45 on day 8
and 35 on day 7. -/
def anomRecs : List CERec :=
  [⟨"P1", "hr", 0, 10, "good"⟩, ⟨"P1", "hr", 1, 10, "good"⟩,
   ⟨"P1", "hr", 2, 10, "good"⟩, ⟨"P1", "hr", 3, 10, "good"⟩,
   ⟨"P1", "hr", 4, 15, "good"⟩, ⟨"P1", "hr", 5, 20, "good"⟩,
   ⟨"P1", "hr", 6, 20, "good"⟩, ⟨"P1", "hr", 7, 35, "good"⟩,
   ⟨"P1", "hr", 8, 45, "good"⟩]

/-- Example cleaner record: a blood-pressure reading whose primary
(systolic) value is `NaN`, with a numeric diastolic value. -/
def nanBpRec : CRec := ⟨0, .nan, some (.num 80), "good"⟩

/-- The pointwise relation between a record list and its image under the
outlier-detection pass: primary values are preserved, and a flag either
survives unchanged or moves from `"good"` to `"outlier"`. -/
def outlierStep (a b : CRec) : Prop :=
  b.v1 = a.v1 ∧ (b.flag = a.flag ∨ (a.flag = "good" ∧ b.flag = "outlier"))

theorem dfDates_sorted_le (rs : List CERec) :
    List.Sorted (· ≤ ·) (dfDates rs) :=
  List.sorted_insertionSort _ _

theorem dfDates_nodup (rs : List CERec) : (dfDates rs).Nodup :=
  (List.perm_insertionSort _ _).symm.nodup (List.nodup_dedup _)

theorem dfDates_sorted (rs : List CERec) :
    List.Sorted (· < ·) (dfDates rs) :=
  (dfDates_sorted_le rs).lt_of_le (dfDates_nodup rs)

theorem mem_dfDates {rs : List CERec} {x : ℤ} :
    x ∈ dfDates rs ↔ x ∈ rs.map (·.day) := by
  unfold dfDates
  rw [(List.perm_insertionSort _ _).mem_iff, List.mem_dedup]

theorem cell_mem_dates {rs : List CERec} {x : ℤ} {m : String}
    (h : (createDailyDataframe rs).cell x m ≠ none) :
    x ∈ (createDailyDataframe rs).dates := by
  have hvs : dayValues rs x m ≠ [] := by
    intro hnil
    apply h
    simp [createDailyDataframe, hnil]
  have hfil : rs.filter (fun r => r.day = x && r.metric = m) ≠ [] := by
    intro hnil
    apply hvs
    unfold dayValues
    rw [hnil, List.map_nil]
  obtain ⟨r, hr⟩ := List.exists_mem_of_ne_nil _ hfil
  obtain ⟨hrs, hpred⟩ := List.mem_filter.mp hr
  have hday : r.day = x := by
    have := (Bool.and_eq_true _ _).mp hpred
    exact of_decide_eq_true this.1
  show x ∈ dfDates rs
  rw [mem_dfDates]
  exact List.mem_map.mpr ⟨r, hrs, hday⟩

/-- C8: for every list of good records, daily aggregation produces per
calendar date the sum of the day's readings for `steps` and the arithmetic
mean for every other metric, with the date index sorted strictly
ascending; in particular two same-day step readings 100 and 150 aggregate
to 250 and two same-day heart-rate readings 60 and 80 aggregate to 70. -/
theorem c8_daily_aggregation :
    (∀ rs : List CERec, List.Sorted (· < ·) (dfDates rs)) ∧
    (∀ (rs : List CERec) (d : ℤ) (m : String), dayValues rs d m ≠ [] →
      (createDailyDataframe rs).cell d m =
        some (if m = "steps" then (dayValues rs d m).sum
              else (dayValues rs d m).sum / (dayValues rs d m).length)) ∧
    (createDailyDataframe aggRecs).cell 0 "steps" = some 250 ∧
    (createDailyDataframe aggRecs).cell 0 "hr" = some 70 := by
  refine ⟨dfDates_sorted, fun rs d m h => ?_, ?_, ?_⟩
  · simp only [createDailyDataframe, aggregateMetric, if_neg h]
  · simp [createDailyDataframe, aggregateMetric, dayValues, aggRecs,
      List.filter_cons]
    norm_num
  · simp [createDailyDataframe, aggregateMetric, dayValues, aggRecs,
      List.filter_cons]
    norm_num

/-- C8 witness: the aggregation rule applied at the concrete example
records. -/
theorem c8_daily_aggregation_witness :
    dayValues aggRecs 0 "steps" ≠ [] ∧
    (createDailyDataframe aggRecs).cell 0 "steps" =
      some (if "steps" = "steps" then (dayValues aggRecs 0 "steps").sum
            else (dayValues aggRecs 0 "steps").sum /
              (dayValues aggRecs 0 "steps").length) := by
  have hne : dayValues aggRecs 0 "steps" ≠ [] := by
    simp [dayValues, aggRecs, List.filter_cons]
  exact ⟨hne, c8_daily_aggregation.2.1 aggRecs 0 "steps" hne⟩

/-- C6 (amended): the source's confidence cascade tests the claimed
conditions in the claimed order, but the labels of the three lower tiers
are `"pretty sure"`, `"might be a thing"` and `"not confident"`, not the
claim's `"likely"`, `"tentative"` and `"low-confidence"`. -/
theorem c6_confidence_cases (n : ℕ) (r : ℚ) :
    ((30 ≤ n ∧ 1/2 ≤ |r|) → getConfidenceLevel n r = "solid") ∧
    ((14 ≤ n ∧ 3/10 ≤ |r| ∧ ¬(30 ≤ n ∧ 1/2 ≤ |r|)) →
      getConfidenceLevel n r = "pretty sure") ∧
    ((1/5 ≤ |r| ∧ ¬(14 ≤ n ∧ 3/10 ≤ |r|)) →
      getConfidenceLevel n r = "might be a thing") ∧
    (|r| < 1/5 → getConfidenceLevel n r = "not confident") := by
  refine ⟨fun h => ?_, fun h => ?_, fun h => ?_, fun h => ?_⟩
  · rw [getConfidenceLevel, if_pos h]
  · rw [getConfidenceLevel, if_neg h.2.2, if_pos ⟨h.1, h.2.1⟩]
  · have h1 : ¬(30 ≤ n ∧ 1/2 ≤ |r|) := by
      rintro ⟨h30, h5⟩
      exact h.2 ⟨by omega, le_trans (by norm_num) h5⟩
    rw [getConfidenceLevel, if_neg h1, if_neg h.2, if_pos h.1]
  · have h1 : ¬(30 ≤ n ∧ 1/2 ≤ |r|) := by
      rintro ⟨_, h5⟩; linarith
    have h2 : ¬(14 ≤ n ∧ 3/10 ≤ |r|) := by
      rintro ⟨_, h3⟩; linarith
    have h3 : ¬(1/5 ≤ |r|) := by linarith
    rw [getConfidenceLevel, if_neg h1, if_neg h2, if_neg h3]

/-- C6 witness: the four tiers at concrete inputs. -/
theorem c6_confidence_cases_witness :
    getConfidenceLevel 30 (1/2) = "solid" ∧
    getConfidenceLevel 14 (3/10) = "pretty sure" ∧
    getConfidenceLevel 13 (1/5) = "might be a thing" ∧
    getConfidenceLevel 100 (1/10) = "not confident" :=
  ⟨(c6_confidence_cases 30 (1/2)).1 ⟨le_refl _, by norm_num [abs_of_nonneg]⟩,
   (c6_confidence_cases 14 (3/10)).2.1
     ⟨le_refl _, by norm_num [abs_of_nonneg], by norm_num [abs_of_nonneg]⟩,
   (c6_confidence_cases 13 (1/5)).2.2.1
     ⟨by norm_num [abs_of_nonneg], by norm_num [abs_of_nonneg]⟩,
   (c6_confidence_cases 100 (1/10)).2.2.2 (by norm_num [abs_of_nonneg])⟩

/-- C6 counterexample: at n = 14 and r = 0.3 the source's label is
`"pretty sure"`, not the claimed `"likely"`. -/
theorem c6_label_counterexample :
    getConfidenceLevel 14 (3/10) = "pretty sure" ∧
    "pretty sure" ≠ "likely" := by
  constructor
  · rw [getConfidenceLevel, if_neg (by norm_num), if_pos (by norm_num [abs_of_nonneg])]
  · decide

/-- C7 (amended): for a good blood-pressure record with numeric systolic
`s` and numeric non-zero diastolic `d`, range validation flags invalid
exactly when `s ∉ [80,200]`, `d ∉ [50,130]`, or `s ≤ d`; but the diastolic
checks are guarded by Python truthiness of `value_2`, so with `d = 0`
(falsy) only the systolic range check applies. -/
theorem c7_bp_validation (t : ℤ) (s d : ℚ) :
    (d ≠ 0 →
      ((recordValidate "bp" ⟨t, .num s, some (.num d), "good"⟩).flag =
          "invalid" ↔
        (¬(80 ≤ s ∧ s ≤ 200) ∨ ¬(50 ≤ d ∧ d ≤ 130) ∨ s ≤ d))) ∧
    ((recordValidate "bp" ⟨t, .num s, some (.num 0), "good"⟩).flag =
        "invalid" ↔
      ¬(80 ≤ s ∧ s ≤ 200)) := by
  constructor
  · intro hd
    by_cases ha : (80:ℚ) ≤ s <;> by_cases hb : s ≤ 200 <;>
    by_cases hc : (50:ℚ) ≤ d <;> by_cases he : d ≤ 130 <;>
    by_cases h3 : s ≤ d <;>
      simp [recordValidate, ple, truthyP, ha, hb, hc, he, h3, hd,
        ← not_le]
  · by_cases ha : (80:ℚ) ≤ s <;> by_cases hb : s ≤ 200 <;>
      simp [recordValidate, ple, truthyP, ha, hb, ← not_le]

/-- C7 witness: the claimed boundary behaviour at concrete records,
derived from the amended characterisation. -/
theorem c7_bp_validation_witness :
    (recordValidate "bp" ⟨0, .num 200, some (.num 100), "good"⟩).flag ≠
        "invalid" ∧
    (recordValidate "bp" ⟨0, .num 201, some (.num 100), "good"⟩).flag =
        "invalid" ∧
    (recordValidate "bp" ⟨0, .num 80, some (.num 50), "good"⟩).flag ≠
        "invalid" ∧
    (recordValidate "bp" ⟨0, .num 79, some (.num 50), "good"⟩).flag =
        "invalid" := by
  refine ⟨fun hc => ?_, ?_, fun hc => ?_, ?_⟩
  · exact absurd (((c7_bp_validation 0 200 100).1 (by norm_num)).mp hc)
      (by norm_num)
  · exact ((c7_bp_validation 0 201 100).1 (by norm_num)).mpr
      (Or.inl (by norm_num))
  · exact absurd (((c7_bp_validation 0 80 50).1 (by norm_num)).mp hc)
      (by norm_num)
  · exact ((c7_bp_validation 0 79 50).1 (by norm_num)).mpr
      (Or.inl (by norm_num))

/-- C7 counterexample: a good blood-pressure record with systolic 120 and
diastolic 0 stays flagged good, although 0 is outside the diastolic range
[50, 130] (the claim requires it to become invalid for every diastolic
value, including 0). -/
theorem c7_diastolic_zero :
    (recordValidate "bp" ⟨0, .num 120, some (.num 0), "good"⟩).flag =
        "good" ∧
    ¬((50:ℚ) ≤ 0 ∧ (0:ℚ) ≤ 130) := by
  constructor
  · norm_num [recordValidate, ple, truthyP]
  · norm_num

/-- C10: a participant whose good records aggregate to fewer than 7
distinct calendar days (the `min_days` default of `__init__`) gets the
empty result dict from `_analyze_participant_correlations`, even though
good records are present. -/
theorem c10_min_days_gate (κ : StatKernel) (rs : List CERec)
    (hg : rs.filter (fun r => r.flag = "good") ≠ [])
    (hd : (dfDates (rs.filter (fun r => r.flag = "good"))).length < 7) :
    analyzeParticipantCorrelations κ engineInit rs = .ok none := by
  have h1 : ¬((rs.filter (fun r => r.flag = "good")).isEmpty = true) := by
    rw [List.isEmpty_iff]; exact hg
  simp only [analyzeParticipantCorrelations, engineInit, createDailyDataframe]
  rw [if_neg h1, if_pos hd]

/-- C10 witness: six days of overlapping steps and heart-rate data (a
6-day overlap for the pair, above the per-pair minimum of 5) still yield
the empty result map, because the total-day gate fails first. -/
theorem c10_min_days_gate_witness :
    gateRecs.filter (fun r => r.flag = "good") ≠ [] ∧
    (dfDates (gateRecs.filter (fun r => r.flag = "good"))).length < 7 ∧
    analyzeParticipantCorrelations noStats engineInit gateRecs = .ok none ∧
    (validPairs (createDailyDataframe
        (gateRecs.filter (fun r => r.flag = "good"))) "steps" "hr").length
      = 6 := by
  have hg : gateRecs.filter (fun r => r.flag = "good") ≠ [] := by
    simp [gateRecs, List.filter_cons]
  have hd : (dfDates (gateRecs.filter (fun r => r.flag = "good"))).length
      < 7 := by
    simp [dfDates, gateRecs, List.filter_cons, List.insertionSort,
      List.orderedInsert]
  refine ⟨hg, hd, c10_min_days_gate noStats gateRecs hg hd, ?_⟩
  simp [validPairs, createDailyDataframe, dfDates, dayValues,
    aggregateMetric, gateRecs, List.filter_cons, List.insertionSort,
    List.orderedInsert, List.filterMap_cons]

/-- C1: on every engine built by `__init__` (which never assigns
`rolling_window` — the assignment sits after a `return` and is
unreachable), `_compute_rolling_correlations` raises `AttributeError` for
every daily series instead of returning; had `__init__` assigned the
documented 14-day window, the concrete 10-day series (shorter than
`14 + 5`) would return the empty map as the claim states. -/
theorem c1_rolling_window_attribute_error :
    (∀ (κ : StatKernel) (df : DailyDF),
      computeRollingCorrelations κ engineInit df = .error .attributeError) ∧
    (createDailyDataframe rollRecs).dates.length = 10 ∧
    computeRollingCorrelations noStats engineSpecInit
      (createDailyDataframe rollRecs) = .ok [] := by
  have hlen : (createDailyDataframe rollRecs).dates.length = 10 := by
    simp [createDailyDataframe, dfDates, rollRecs, List.insertionSort,
      List.orderedInsert]
  refine ⟨fun κ df => rfl, hlen, ?_⟩
  simp only [computeRollingCorrelations, engineSpecInit]
  rw [if_pos (by rw [hlen]; norm_num)]

theorem processList_error (κ : StatKernel) (e : CorrelationEngine)
    (rs : List CERec) (pid : String) (err : PyError)
    (herr : analyzeParticipantCorrelations κ e (participantData rs pid) =
      .error err) :
    ∀ l : List String, pid ∈ l →
      processList κ e rs l = .error .attributeError := by
  intro l
  induction l with
  | nil => intro h; exact absurd h (List.not_mem_nil _)
  | cons p ps ih =>
    intro hmem
    rcases List.mem_cons.mp hmem with heq | htail
    · subst heq
      simp only [processList, herr]
    · simp only [processList]
      cases hcase : analyzeParticipantCorrelations κ e
          (participantData rs p) with
      | error e2 => cases e2; rfl
      | ok o =>
        cases o with
        | none => exact ih htail
        | some a => rw [ih htail]

/-- C2 (amended): `CorrelationEngine.process` has no per-participant
exception handling, so an exception raised while analyzing any one
participant propagates out of `process`, which then returns no result map
at all (aborting the other participants' analyses). -/
theorem c2_exception_propagates (κ : StatKernel) (e : CorrelationEngine)
    (rs : List CERec) (pid : String) (err : PyError)
    (hmem : pid ∈ participants rs)
    (herr : analyzeParticipantCorrelations κ e (participantData rs pid) =
      .error err) :
    processEngine κ e rs = .error .attributeError :=
  processList_error κ e rs pid err herr (participants rs) hmem

/-- C2 witness: the propagation theorem applied to the concrete
two-participant collection. -/
theorem c2_exception_propagates_witness :
    "P1" ∈ participants procRecs ∧
    processEngine noStats engineInit procRecs = .error .attributeError := by
  have hmem : "P1" ∈ participants procRecs := by
    simp [participants, procRecs]
  have herr : analyzeParticipantCorrelations noStats engineInit
      (participantData procRecs "P1") = .error .attributeError := by
    simp [analyzeParticipantCorrelations, participantData, procRecs,
      createDailyDataframe, dfDates, engineInit, List.filter_cons,
      List.insertionSort, List.orderedInsert, computeRollingCorrelations]
  exact ⟨hmem, c2_exception_propagates noStats engineInit procRecs "P1"
    .attributeError hmem herr⟩

/-- C2 counterexample: in the concrete two-participant collection,
participant `P1`'s analysis raises (via the unassigned `rolling_window`
attribute) and `process` returns an error rather than a result map, even
though `P2`'s analysis on its own succeeds (returning the empty dict). -/
theorem c2_process_aborts :
    processEngine noStats engineInit procRecs = .error .attributeError ∧
    analyzeParticipantCorrelations noStats engineInit
      (participantData procRecs "P2") = .ok none ∧
    participants procRecs = ["P1", "P2"] := by
  refine ⟨?_, ?_, ?_⟩
  · simp [processEngine, processList, participants, procRecs,
      analyzeParticipantCorrelations, participantData, createDailyDataframe,
      dfDates, engineInit, List.filter_cons, List.insertionSort,
      List.orderedInsert, computeRollingCorrelations]
  · simp [analyzeParticipantCorrelations, participantData, procRecs,
      createDailyDataframe, dfDates, engineInit, List.filter_cons,
      List.insertionSort, List.orderedInsert]
  · simp [participants, procRecs]

theorem flagOutliers_rel :
    ∀ (rs : List CRec) (o1 o2 : List ℕ) (i : ℕ),
      List.Forall₂ outlierStep rs (flagOutliers rs o1 o2 i) := by
  intro rs
  induction rs with
  | nil => intro o1 o2 i; exact .nil
  | cons r rest ih =>
    intro o1 o2 i
    by_cases hg : r.flag = "good"
    · rw [flagOutliers, if_pos hg]
      by_cases hmem : i ∈ o1 ∨ (r.v2.isSome ∧ i ∈ o2)
      · rw [if_pos hmem]
        exact .cons ⟨rfl, .inr ⟨hg, rfl⟩⟩ (ih o1 o2 (i + 1))
      · rw [if_neg hmem]
        exact .cons ⟨rfl, .inl rfl⟩ (ih o1 o2 (i + 1))
    · rw [flagOutliers, if_neg hg]
      exact .cons ⟨rfl, .inl rfl⟩ (ih o1 o2 i)

theorem detectOutliers_rel (m : String) (rs : List CRec) :
    List.Forall₂ outlierStep rs (detectOutliers m rs) := by
  unfold detectOutliers
  by_cases h : (rs.filter (fun r => r.flag = "good")).length < 5
  · rw [if_pos h]
    exact List.forall₂_same.mpr (fun x _ => ⟨rfl, .inl rfl⟩)
  · rw [if_neg h]
    exact flagOutliers_rel rs _ _ 0

/-- C5 (amended): the missing-value check runs last and reflags exactly
the records whose primary value is null/`NaN`; it overrides *any* prior
flag on such records, invalid included, while every record flagged invalid
by range validation whose primary value is an actual number keeps the
invalid flag through the remaining pipeline. -/
theorem c5_missing_check_last (m : String) (rs : List CRec) :
    List.Forall₂ (fun a b =>
        (a.v1.isNan = true → b.flag = "missing") ∧
        (a.flag = "invalid" → a.v1.isNan = false → b.flag = "invalid"))
      (applyValidationRules m (sortRecords (removeDuplicates rs)))
      (cleanParticipantMetricData m rs) := by
  unfold cleanParticipantMetricData handleMissingValues
  rw [List.forall₂_map_right_iff]
  refine List.Forall₂.imp ?_ (detectOutliers_rel m
    (applyValidationRules m (sortRecords (removeDuplicates rs))))
  intro a b hab
  constructor
  · intro hnan
    have hb : b.v1.isNan = true := by rw [hab.1]; exact hnan
    simp [hb]
  · intro hinv hnn
    have hbflag : b.flag = "invalid" := by
      rcases hab.2 with h | ⟨hg, _⟩
      · rw [h, hinv]
      · rw [hg] at hinv
        exact absurd hinv (by decide)
    have hb : b.v1.isNan = false := by rw [hab.1]; exact hnn
    simp [hb, hbflag]

/-- C5 witness: the amended pipeline relation at the concrete
`NaN`-systolic record. -/
theorem c5_missing_check_last_witness :
    List.Forall₂ (fun a b =>
        (a.v1.isNan = true → b.flag = "missing") ∧
        (a.flag = "invalid" → a.v1.isNan = false → b.flag = "invalid"))
      (applyValidationRules "bp" (sortRecords (removeDuplicates [nanBpRec])))
      (cleanParticipantMetricData "bp" [nanBpRec]) :=
  c5_missing_check_last "bp" [nanBpRec]

/-- C5 counterexample: a blood-pressure record with a `NaN` systolic value
is flagged invalid by range validation (every `NaN` comparison is false),
but the missing-value check then overrides the invalid flag with
`"missing"`, so a record flagged invalid by range validation does not
always stay invalid. -/
theorem c5_invalid_overridden :
    (applyValidationRules "bp"
        (sortRecords (removeDuplicates [nanBpRec]))).map (·.flag) =
      ["invalid"] ∧
    (cleanParticipantMetricData "bp" [nanBpRec]).map (·.flag) =
      ["missing"] := by
  constructor
  · simp [applyValidationRules, sortRecords, removeDuplicates,
      removeDuplicatesGo, recordValidate, ple, truthyP, nanBpRec,
      List.insertionSort, List.orderedInsert]
  · simp [cleanParticipantMetricData, handleMissingValues, detectOutliers,
      applyValidationRules, sortRecords, removeDuplicates,
      removeDuplicatesGo, recordValidate, ple, truthyP, nanBpRec,
      List.insertionSort, List.orderedInsert, List.filter_cons,
      PVal.isNan]

theorem analyzeAnomalies_lookup (df : DailyDF) (m : String)
    (h7 : ¬(metricValues df m).length < 7)
    (hne : anomalyDates df m ≠ []) (hnd : df.cols.Nodup)
    (hm : m ∈ df.cols) :
    (analyzeAnomalies df).lookup m = some (anomalyDates df m) := by
  unfold analyzeAnomalies
  revert hnd hm
  generalize df.cols = cols
  intro hnd hm
  induction cols with
  | nil => exact absurd hm (List.not_mem_nil _)
  | cons c cs ih =>
    rw [List.filterMap_cons]
    by_cases hceq : c = m
    · subst hceq
      simp only [if_neg h7, if_neg hne]
      simp [List.lookup_cons]
    · have hm' : m ∈ cs := by
        rcases List.mem_cons.mp hm with h | h
        · exact absurd h.symm hceq
        · exact h
      have ih' := ih (List.nodup_cons.mp hnd).2 hm'
      have hbeq : (m == c) = false :=
        beq_eq_false_iff_ne.mpr (Ne.symm hceq)
      by_cases h1 : (metricValues df c).length < 7
      · simp only [if_pos h1]
        exact ih'
      · by_cases h2 : anomalyDates df c = []
        · simp only [if_neg h1, if_pos h2]
          exact ih'
        · simp only [if_neg h1, if_neg h2]
          rw [List.lookup_cons, hbeq]
          exact ih'

/-- C9: for every metric column with at least 7 non-missing daily values,
the anomaly detector marks exactly the dates whose value falls strictly
outside the closed interval `[Q1 − 2·IQR, Q3 + 2·IQR]`, and (when any
anomaly exists) reports exactly those dates for the metric. -/
theorem c9_anomaly_detection (rs : List CERec) (m : String)
    (h7 : 7 ≤ (metricValues (createDailyDataframe rs) m).length) :
    (∀ d : ℤ,
      d ∈ anomalyDates (createDailyDataframe rs) m ↔
        d ∈ (createDailyDataframe rs).dates ∧
        ∃ v, (createDailyDataframe rs).cell d m = some v ∧
          (v < anomalyLowerBound (createDailyDataframe rs) m ∨
            anomalyUpperBound (createDailyDataframe rs) m < v)) ∧
    (m ∈ (createDailyDataframe rs).cols →
      anomalyDates (createDailyDataframe rs) m ≠ [] →
      (analyzeAnomalies (createDailyDataframe rs)).lookup m =
        some (anomalyDates (createDailyDataframe rs) m)) := by
  constructor
  · intro d
    unfold anomalyDates
    rw [List.mem_filter]
    refine and_congr_right fun _ => ?_
    cases hcell : (createDailyDataframe rs).cell d m with
    | none => simp [hcell]
    | some v => simp [hcell]
  · intro hm hne
    have hnd : (createDailyDataframe rs).cols.Nodup := by
      simp only [createDailyDataframe]
      exact List.nodup_dedup _
    exact analyzeAnomalies_lookup _ m (Nat.not_lt.mpr h7) hne hnd hm

/-- C9 witness: the spec's concrete anomaly-bound example.  The 9-value
daily series 10, 10, 10, 10, 15, 20, 20, 35, 45 has Q1 = 10, Q3 = 20,
bounds `[-10, 40]`; the day carrying 45 is anomalous, the day carrying 35
is not. -/
theorem c9_anomaly_detection_witness :
    7 ≤ (metricValues (createDailyDataframe anomRecs) "hr").length ∧
    quantileAB (metricValues (createDailyDataframe anomRecs) "hr") 1 4
      = 10 ∧
    quantileAB (metricValues (createDailyDataframe anomRecs) "hr") 3 4
      = 20 ∧
    anomalyLowerBound (createDailyDataframe anomRecs) "hr" = -10 ∧
    anomalyUpperBound (createDailyDataframe anomRecs) "hr" = 40 ∧
    anomalyDates (createDailyDataframe anomRecs) "hr" = [8] ∧
    ((8:ℤ) ∈ anomalyDates (createDailyDataframe anomRecs) "hr" ↔
      (8:ℤ) ∈ (createDailyDataframe anomRecs).dates ∧
      ∃ v, (createDailyDataframe anomRecs).cell 8 "hr" = some v ∧
        (v < anomalyLowerBound (createDailyDataframe anomRecs) "hr" ∨
          anomalyUpperBound (createDailyDataframe anomRecs) "hr" < v)) := by
  have hmv : metricValues (createDailyDataframe anomRecs) "hr" =
      [10, 10, 10, 10, 15, 20, 20, 35, 45] := by
    simp [metricValues, createDailyDataframe, dfDates, dayValues,
      aggregateMetric, anomRecs, List.filter_cons, List.insertionSort,
      List.orderedInsert, List.filterMap_cons]
  have hq1 : quantileAB (metricValues (createDailyDataframe anomRecs) "hr")
      1 4 = 10 := by
    rw [hmv]
    norm_num [quantileAB, List.insertionSort, List.orderedInsert, List.getD]
  have hq3 : quantileAB (metricValues (createDailyDataframe anomRecs) "hr")
      3 4 = 20 := by
    rw [hmv]
    norm_num [quantileAB, List.insertionSort, List.orderedInsert, List.getD]
  have hlo : anomalyLowerBound (createDailyDataframe anomRecs) "hr" = -10 := by
    simp only [anomalyLowerBound, hq1, hq3]
    norm_num
  have hup : anomalyUpperBound (createDailyDataframe anomRecs) "hr" = 40 := by
    simp only [anomalyUpperBound, hq1, hq3]
    norm_num
  have h7 : 7 ≤ (metricValues (createDailyDataframe anomRecs) "hr").length := by
    rw [hmv]
    norm_num
  have hdates : anomalyDates (createDailyDataframe anomRecs) "hr" = [8] := by
    simp only [anomalyDates, hlo, hup]
    simp [createDailyDataframe, dfDates, dayValues, aggregateMetric,
      anomRecs, List.filter_cons, List.insertionSort, List.orderedInsert]
    norm_num
  exact ⟨h7, hq1, hq3, hlo, hup, hdates,
    (c9_anomaly_detection anomRecs "hr" h7).1 8⟩

theorem recoveryFind_eq_find (df : DailyDF) (m : String) (a : ℤ) :
    ∀ ks : List ℕ, (∀ k ∈ ks, a + (k : ℤ) ∈ df.dates) →
      recoveryFind df m a ks = ks.find? (fun (k : ℕ) =>
        match df.cell (a + (k : ℤ)) m with
        | some v => inRecoveryBand df m v
        | none => false) := by
  intro ks
  induction ks with
  | nil => intro _; rfl
  | cons k ks ih =>
    intro h
    have hk : a + (k : ℤ) ∈ df.dates := h k (List.mem_cons_self _ _)
    have htail := ih (fun k' hk' => h k' (List.mem_cons_of_mem _ hk'))
    simp only [recoveryFind, if_pos hk]
    cases hcell : df.cell (a + (k : ℤ)) m with
    | none =>
      dsimp only
      rw [List.find?_cons_of_neg _ (by simp [hcell]), htail]
    | some v =>
      dsimp only
      cases hband : inRecoveryBand df m v with
      | true =>
        rw [if_pos rfl, List.find?_cons_of_pos _ (by simp [hcell, hband])]
      | false =>
        rw [if_neg (by simp),
          List.find?_cons_of_neg _ (by simp [hcell, hband]), htail]

/-- C4 (amended): for each anomalous date the recovery scan examines the
following 7 calendar days in order and records the first whose value lies
within `[Q1 − 1.5·IQR, Q3 + 1.5·IQR]`; a day *present in the daily table*
with no aggregated value for the metric is skipped without terminating the
scan, but a calendar day absent from the table terminates the scan
immediately — so the claimed behaviour holds exactly when all 7 following
days are present in the table. -/
theorem c4_recovery_scan (df : DailyDF) (m : String) (a : ℤ)
    (h : ∀ k ∈ ([1, 2, 3, 4, 5, 6, 7] : List ℕ), a + (k : ℤ) ∈ df.dates) :
    recoveryOffset df m a = recoveryOffsetSpec df m a :=
  recoveryFind_eq_find df m a [1, 2, 3, 4, 5, 6, 7] h

/-- C4 witness: the amended scan equivalence at the concrete gap-free
series (all of days 1..7 after the anomalous day 0 are present). -/
theorem c4_recovery_scan_witness :
    (∀ k ∈ ([1, 2, 3, 4, 5, 6, 7] : List ℕ),
      (0 : ℤ) + (k : ℤ) ∈ (createDailyDataframe recovFullRecs).dates) ∧
    recoveryOffset (createDailyDataframe recovFullRecs) "hr" 0 =
      recoveryOffsetSpec (createDailyDataframe recovFullRecs) "hr" 0 := by
  have h : ∀ k ∈ ([1, 2, 3, 4, 5, 6, 7] : List ℕ),
      (0 : ℤ) + (k : ℤ) ∈ (createDailyDataframe recovFullRecs).dates := by
    intro k hk
    fin_cases hk <;>
      simp [createDailyDataframe, dfDates, recovFullRecs,
        List.insertionSort, List.orderedInsert]
  exact ⟨h, c4_recovery_scan (createDailyDataframe recovFullRecs) "hr" 0 h⟩

/-- C4 counterexample: in the concrete series day 0 is the unique
anomalous date and day 1 is absent from the daily table; the source's scan
terminates at offset 1 (`break` on a date absent from the index) and
records no recovery, while the claimed scan (skipping days with no
aggregated value) would record offset 2, whose value 60 is inside the
recovery band. -/
theorem c4_recovery_break_on_gap :
    anomalyDates (createDailyDataframe recovGapRecs) "hr" = [0] ∧
    recoveryOffset (createDailyDataframe recovGapRecs) "hr" 0 = none ∧
    recoveryOffsetSpec (createDailyDataframe recovGapRecs) "hr" 0 =
      some 2 := by
  have hmv : metricValues (createDailyDataframe recovGapRecs) "hr" =
      [1000, 60, 61, 62, 63, 60, 61, 62] := by
    simp [metricValues, createDailyDataframe, dfDates, dayValues,
      aggregateMetric, recovGapRecs, List.filter_cons, List.insertionSort,
      List.orderedInsert, List.filterMap_cons]
  have hq1 : quantileAB (metricValues
      (createDailyDataframe recovGapRecs) "hr") 1 4 = 243/4 := by
    rw [hmv]
    norm_num [quantileAB, List.insertionSort, List.orderedInsert, List.getD]
  have hq3 : quantileAB (metricValues
      (createDailyDataframe recovGapRecs) "hr") 3 4 = 249/4 := by
    rw [hmv]
    norm_num [quantileAB, List.insertionSort, List.orderedInsert, List.getD]
  refine ⟨?_, ?_, ?_⟩
  · have hlo : anomalyLowerBound (createDailyDataframe recovGapRecs) "hr"
        = 231/4 := by
      simp only [anomalyLowerBound, hq1, hq3]
      norm_num
    have hup : anomalyUpperBound (createDailyDataframe recovGapRecs) "hr"
        = 261/4 := by
      simp only [anomalyUpperBound, hq1, hq3]
      norm_num
    simp only [anomalyDates, hlo, hup]
    simp [createDailyDataframe, dfDates, dayValues, aggregateMetric,
      recovGapRecs, List.filter_cons, List.insertionSort,
      List.orderedInsert]
    norm_num
  · rw [recoveryOffset]
    simp only [recoveryFind]
    rw [if_neg (by
      simp [createDailyDataframe, dfDates, recovGapRecs,
        List.insertionSort, List.orderedInsert])]
  · have hband : inRecoveryBand (createDailyDataframe recovGapRecs) "hr" 60
        = true := by
      simp only [inRecoveryBand, hq1, hq3]
      norm_num
    have hc1 : (createDailyDataframe recovGapRecs).cell 1 "hr" = none := by
      simp [createDailyDataframe, dayValues, recovGapRecs, List.filter_cons]
    have hc2 : (createDailyDataframe recovGapRecs).cell 2 "hr"
        = some 60 := by
      simp [createDailyDataframe, dayValues, aggregateMetric, recovGapRecs,
        List.filter_cons]
    rw [recoveryOffsetSpec,
      List.find?_cons_of_neg _ (by simp [hc1]),
      List.find?_cons_of_pos _ (by simp [hc2, hband])]

theorem sorted_le_getLast {ds : List ℤ} (hs : List.Sorted (· ≤ ·) ds) :
    ∀ x ∈ ds, ∀ d, ds.getLast? = some d → x ≤ d := by
  induction ds with
  | nil => intro x hx; exact absurd hx (List.not_mem_nil _)
  | cons c cs ih =>
    intro x hx d hd
    cases cs with
    | nil =>
      rw [List.getLast?_singleton] at hd
      rcases List.mem_singleton.mp hx with rfl
      exact le_of_eq (Option.some.inj hd)
    | cons c2 cs2 =>
      rw [List.getLast?_cons_cons] at hd
      have hdm : d ∈ c2 :: cs2 := by
        obtain ⟨hne, heq⟩ := List.mem_getLast?_eq_getLast
          (Option.mem_def.mpr hd)
        rw [heq]
        exact List.getLast_mem hne
      rcases List.mem_cons.mp hx with rfl | hx2
      · exact (List.sorted_cons.mp hs).1 d hdm
      · exact ih (List.sorted_cons.mp hs).2 x hx2 d hd

theorem lagZip_eq_calendar (f g : ℤ → Option ℚ) :
    ∀ ds : List ℤ, List.Chain' (fun a b => b = a + 1) ds →
      (∀ d, ds.getLast? = some d → g (d + 1) = none) →
      ((ds.zip ds.tail).filterMap fun p =>
          match f p.1, g p.2 with
          | some a, some b => some (a, b)
          | _, _ => none) =
        (ds.filterMap fun d =>
          match f d, g (d + 1) with
          | some a, some b => some (a, b)
          | _, _ => none) := by
  intro ds
  induction ds with
  | nil => intro _ _; rfl
  | cons d ds ih =>
    intro hch hlast
    cases ds with
    | nil =>
      have hg : g (d + 1) = none := hlast d rfl
      cases hf : f d <;>
        simp [List.filterMap_cons, hf, hg]
    | cons d2 ds2 =>
      have hstep : d2 = d + 1 := (List.chain'_cons.mp hch).1
      have hch2 := (List.chain'_cons.mp hch).2
      have hlast2 : ∀ x, (d2 :: ds2).getLast? = some x → g (x + 1) = none :=
        fun x hx => hlast x (by rw [List.getLast?_cons_cons]; exact hx)
      have ihr := ih hch2 hlast2
      subst hstep
      simp only [List.tail_cons, List.zip_cons_cons] at ihr ⊢
      rw [List.filterMap_cons, List.filterMap_cons, ihr]

/-- C3 (amended): the lag-1 analyzer pairs metric A's value on the `i`-th
date of the date-sorted daily table with metric B's value on the
`(i+1)`-th date (a positional `shift(-1)`); when the table's dates are
consecutive calendar days this coincides with the claimed pairing of day
`d` with day `d + 1`, but over gaps the paired rows are more than one
calendar day apart. -/
theorem c3_lag_pairing (rs : List CERec) (m1 m2 : String)
    (hch : List.Chain' (fun a b : ℤ => b = a + 1) (dfDates rs)) :
    lagPairs (createDailyDataframe rs) m1 m2 =
      lagPairsSpec (createDailyDataframe rs) m1 m2 := by
  have hlast : ∀ d : ℤ, (dfDates rs).getLast? = some d →
      (createDailyDataframe rs).cell (d + 1) m2 = none := by
    intro d hd
    by_cases hne : (createDailyDataframe rs).cell (d + 1) m2 = none
    · exact hne
    · have hmem := cell_mem_dates hne
      have hle := sorted_le_getLast (dfDates_sorted_le rs) _ hmem d hd
      omega
  exact lagZip_eq_calendar (fun x => (createDailyDataframe rs).cell x m1)
    (fun x => (createDailyDataframe rs).cell x m2) (dfDates rs) hch hlast

/-- C3 witness: on the gap-free example (days 0, 1, 2) the positional
pairing agrees with the claimed calendar pairing. -/
theorem c3_lag_pairing_witness :
    List.Chain' (fun a b : ℤ => b = a + 1) (dfDates consecRecs) ∧
    lagPairs (createDailyDataframe consecRecs) "steps" "hr" =
      lagPairsSpec (createDailyDataframe consecRecs) "steps" "hr" := by
  have hch : List.Chain' (fun a b : ℤ => b = a + 1) (dfDates consecRecs) := by
    simp [dfDates, consecRecs, List.insertionSort, List.orderedInsert,
      List.chain'_cons]
  exact ⟨hch, c3_lag_pairing consecRecs "steps" "hr" hch⟩

/-- C3 counterexample: with readings on days 0 and 2 only, the lag-1
analyzer pairs steps on day 0 with heart rate on day 2 — two calendar days
later — while the claimed day-`d`-with-day-`d+1` pairing admits no pair at
all. -/
theorem c3_lag_pairs_gap :
    (createDailyDataframe gapRecs).dates = [0, 2] ∧
    lagPairs (createDailyDataframe gapRecs) "steps" "hr" = [(100, 80)] ∧
    lagPairsSpec (createDailyDataframe gapRecs) "steps" "hr" = [] := by
  refine ⟨?_, ?_, ?_⟩
  · simp [createDailyDataframe, dfDates, gapRecs, List.insertionSort,
      List.orderedInsert]
  · simp [lagPairs, createDailyDataframe, dfDates, dayValues,
      aggregateMetric, gapRecs, List.filter_cons, List.insertionSort,
      List.orderedInsert, List.zip_cons_cons, List.filterMap_cons]
  · simp [lagPairsSpec, createDailyDataframe, dfDates, dayValues,
      aggregateMetric, gapRecs, List.filter_cons, List.insertionSort,
      List.orderedInsert, List.filterMap_cons]
